import Mathlib

/-!
Shallow embedding of `src/app.py`: a Flask backend with two GET handlers,
`/recommend` and `/explain-node`.  Query parameters are modelled as strings
defaulting to `""` (Flask's `request.args.get(key, "")`); Python's `.strip()`
is `pyStrip` below; the per-client Flask session entry `session["user_profile"]`
is an `Option Profile`; the outbound Gemini call
`client.models.generate_content(...)` is a function parameter
`gen : GenClient` returning `Except String String` (`.error e` models a raised
exception whose `str(e)` is `e`, `.ok t` models a response whose `.text` is
`t`).  HTTP responses are a body, a status and a content type.
-/

/-- The five optional profile fields stored in `session["user_profile"]`
(app.py lines 73-79).  A field is "absent" when it is the empty string,
matching the dict of strings the code stores. -/
structure Profile where
  name : String
  age : String
  experience : String
  current_certs : String
  interest : String
deriving Repr, DecidableEq

/-- Query parameters of `GET /recommend` (app.py lines 51-56); a missing
parameter is the empty string, as with `request.args.get(k, "")`. -/
structure RecArgs where
  name : String
  age : String
  experience : String
  current_certs : String
  interest : String
  timeframe : String
deriving Repr, DecidableEq

/-- Query parameters of `GET /explain-node` (app.py lines 111, 116-120). -/
structure ExpArgs where
  title : String
  name : String
  age : String
  experience : String
  current_certs : String
  interest : String
deriving Repr, DecidableEq

/-- An HTTP response: body, status code and content type (Flask `Response`
mimetype, or the Content-Type header of a tuple return). -/
structure HttpResponse where
  body : String
  status : Nat
  contentType : String
deriving Repr, DecidableEq

/-- The generation client: from a prompt to either the response text or the
message of a raised exception. -/
abbrev GenClient : Type := String → Except String String

/-- Python's truthiness fallback `a or b` for strings: `b` when `a` is empty. -/
def pyOr (a b : String) : String := if a = "" then b else a

/-- ASCII whitespace as removed by Python's `str.strip()` with no argument
(space, tab, newline, carriage return, vertical tab, form feed; other Unicode
space characters are not modelled). -/
def isPySpace (c : Char) : Bool :=
  c == ' ' || c == '\t' || c == '\n' || c == '\r' || c == '\x0b' || c == '\x0c'

/-- Drop the leading whitespace of a character list. -/
def dropSpace : List Char → List Char
  | [] => []
  | c :: cs => if isPySpace c then dropSpace cs else c :: cs

/-- Python's `s.strip()`: remove leading and trailing whitespace.  Defined by
structural recursion over the character list so that concrete instances
evaluate. -/
def pyStrip (s : String) : String :=
  ⟨(dropSpace (dropSpace s.data).reverse).reverse⟩

/-- Reading `session.get("user_profile", {}).get(field, "")`: the stored field
value, or `""` when no profile is stored. -/
def sessField (sess : Option Profile) (f : Profile → String) : String :=
  match sess with
  | none => ""
  | some p => f p

/-- The profile-lines block both handlers build (app.py lines 59-70 and
123-134): one labelled line per non-empty field, in source order. -/
def profileLines (p : Profile) : List String :=
  (if p.name = "" then [] else ["- Name: " ++ p.name]) ++
  (if p.age = "" then [] else ["- Age: " ++ p.age]) ++
  (if p.experience = "" then [] else ["- Experience Level: " ++ p.experience]) ++
  (if p.current_certs = "" then [] else ["- Current Certifications: " ++ p.current_certs]) ++
  (if p.interest = "" then [] else ["- Areas of Interest: " ++ p.interest])

/-- `profile_text = "\n".join(profile_lines)` (app.py lines 70 and 134). -/
def profileText (p : Profile) : String :=
  String.intercalate "\n" (profileLines p)

/-- The trimmed profile the `/recommend` handler builds from its query
parameters (app.py lines 51-55). -/
def RecArgs.toProfile (a : RecArgs) : Profile :=
  ⟨pyStrip a.name, pyStrip a.age, pyStrip a.experience,
   pyStrip a.current_certs, pyStrip a.interest⟩

/-- The roadmap prompt f-string (app.py lines 82-93), as a function of the
interpolated `profile_text` and `tf`. -/
def recommendPromptText (profile_text tf : String) : String :=
  "\nYou are a cybersecurity career advisor with a fun and personal touch. Based on the user's profile, generate a personalized certification roadmap and guidance for that perosn say his name.\n\n**IMPORTANT**: Return a self‑contained HTML fragment only.  \n- Wrap each phase in <div class=\"roadmap-phase\">…</div>.  \n- Use <h2>, <h3>, <ul>, <li> for structure.  \n- No external CSS or JS—just the fragment.\n\nUser Profile:\n"
    ++ profile_text ++ "\nDesired Roadmap Timeframe: " ++ tf ++ "\n"

/-- The prompt `/recommend` compiles for a given request (app.py lines 51-93). -/
def recommendPrompt (a : RecArgs) : String :=
  recommendPromptText (profileText a.toProfile) (pyStrip a.timeframe)

/-- The `/recommend` handler (app.py lines 48-105): trims the parameters,
overwrites `session["user_profile"]`, compiles the prompt, calls the
generation client inside `try`, and returns the response together with the
new session state.  The session write happens before the call and is not
rolled back in the `except` branch. -/
def recommend (gen : GenClient) (a : RecArgs) (sess : Option Profile) :
    HttpResponse × Option Profile :=
  let newSess : Option Profile := some a.toProfile
  match gen (recommendPrompt a) with
  | .ok t =>
      (⟨pyOr (pyStrip t) "<p>No roadmap generated.</p>", 200, "text/html"⟩, newSess)
  | .error e =>
      (⟨"<p style='color:red;'>Error: " ++ e ++ "</p>", 500, "text/html"⟩, newSess)

/-- The effective profile `/explain-node` works with (app.py lines 116-120):
each request parameter is trimmed and, when empty, falls back to the stored
session field via Python's `or`. -/
def explainEffective (a : ExpArgs) (sess : Option Profile) : Profile :=
  ⟨pyOr (pyStrip a.name) (sessField sess Profile.name),
   pyOr (pyStrip a.age) (sessField sess Profile.age),
   pyOr (pyStrip a.experience) (sessField sess Profile.experience),
   pyOr (pyStrip a.current_certs) (sessField sess Profile.current_certs),
   pyOr (pyStrip a.interest) (sessField sess Profile.interest)⟩

/-- The explanation prompt f-string (app.py lines 136-144), as a function of
the interpolated title, effective name and `profile_text`. -/
def explainPromptText (title name profile_text : String) : String :=
  "Teach the topic '" ++ title ++ "' in a concise, personal, and fun tutorial style for "
    ++ pyOr name "the user"
    ++ ".\nUser Profile:\n" ++ profile_text
    ++ "\n\n**IMPORTANT**: Return a self-contained HTML fragment only.  \n- Wrap the explanation in appropriate HTML elements (e.g. <div>, <h2>, <p>).\n- Do not include any extra text.\n\nProvide a short, clear explanation on this topic in the context of cybersecurity certifications and training."

/-- The prompt `/explain-node` compiles for a given request and session
(app.py lines 111-144).  Only meaningful when the title is non-blank, since
the handler rejects blank titles before compiling. -/
def explainPrompt (a : ExpArgs) (sess : Option Profile) : String :=
  explainPromptText (pyStrip a.title) (explainEffective a sess).name
    (profileText (explainEffective a sess))

/-- The `/explain-node` handler (app.py lines 109-156): rejects a blank title
with a plain-text 400, otherwise compiles the prompt from request parameters
with session fallback and calls the generation client inside `try`.  It never
writes to the session. -/
def explain_node (gen : GenClient) (a : ExpArgs) (sess : Option Profile) :
    HttpResponse :=
  if pyStrip a.title = "" then
    ⟨"Missing node title", 400, "text/plain; charset=utf-8"⟩
  else
    match gen (explainPrompt a sess) with
    | .ok t =>
        ⟨pyOr (pyStrip t) "<div>No explanation found.</div>", 200, "text/html"⟩
    | .error e =>
        ⟨"<p style='color:red;'>❌ Error: " ++ e ++ "</p>", 500, "text/html"⟩

/-- Substring containment, used to state "the body contains the message". -/
def strContains (s pat : String) : Prop := pat.data <:+: s.data

instance (s pat : String) : Decidable (strContains s pat) :=
  inferInstanceAs (Decidable (pat.data <:+: s.data))


/-- The five fields in the fixed order the handlers render them, with their
labels, used to state the rendering claims independently of the handler code. -/
def fieldOrder : List (String × (Profile → String)) :=
  [("Name", Profile.name), ("Age", Profile.age),
   ("Experience Level", Profile.experience),
   ("Current Certifications", Profile.current_certs),
   ("Areas of Interest", Profile.interest)]

/-- Profile rendering as the spec describes it: one labelled line per populated
field, in the fixed field order, nothing for absent fields. -/
def specProfileLines (p : Profile) : List String :=
  (fieldOrder.filter (fun lf => decide (lf.2 p ≠ ""))).map
    (fun lf => "- " ++ lf.1 ++ ": " ++ lf.2 p)

/-- Names for the five profile fields, used to state the per-field
override/fallback claim uniformly. -/
inductive FieldId where
  | name
  | age
  | experience
  | current_certs
  | interest
deriving DecidableEq, Repr

/-- The value of a profile field selected by name. -/
def Profile.fieldVal : Profile → FieldId → String
  | p, .name => p.name
  | p, .age => p.age
  | p, .experience => p.experience
  | p, .current_certs => p.current_certs
  | p, .interest => p.interest

/-- The value of an explain-node request parameter selected by field name. -/
def ExpArgs.fieldVal : ExpArgs → FieldId → String
  | a, .name => a.name
  | a, .age => a.age
  | a, .experience => a.experience
  | a, .current_certs => a.current_certs
  | a, .interest => a.interest

theorem strContains_appendL (s b pat : String) (h : strContains s pat) :
    strContains (s ++ b) pat := by
  unfold strContains at h ⊢
  rw [String.data_append]
  exact h.trans (by simpa using List.infix_append [] s.data b.data)

theorem strContains_appendR (a s pat : String) (h : strContains s pat) :
    strContains (a ++ s) pat := by
  unfold strContains at h ⊢
  rw [String.data_append]
  exact h.trans (by simpa using List.infix_append a.data s.data [])

theorem strContains_refl (s : String) : strContains s s :=
  List.infix_refl s.data

theorem strContains_mid (a pat b : String) : strContains (a ++ pat ++ b) pat :=
  strContains_appendL _ _ _ (strContains_appendR _ _ _ (strContains_refl pat))

theorem intercalate_go_contains (pat sep : String) :
    ∀ (as : List String) (acc : String),
      (strContains acc pat ∨ ∃ s ∈ as, strContains s pat) →
      strContains (String.intercalate.go acc sep as) pat := by
  intro as
  induction as with
  | nil =>
      intro acc h
      rcases h with h | ⟨s, hs, _⟩
      · simpa [String.intercalate.go] using h
      · cases hs
  | cons a as ih =>
      intro acc h
      show strContains (String.intercalate.go (acc ++ sep ++ a) sep as) pat
      apply ih
      rcases h with h | ⟨s, hs, hc⟩
      · exact Or.inl (strContains_appendL _ _ _ (strContains_appendL _ _ _ h))
      · rcases List.mem_cons.mp hs with rfl | hmem
        · exact Or.inl (strContains_appendR _ _ _ hc)
        · exact Or.inr ⟨s, hmem, hc⟩

theorem strContains_intercalate (sep : String) (l : List String) (s pat : String)
    (hs : s ∈ l) (h : strContains s pat) :
    strContains (String.intercalate sep l) pat := by
  cases l with
  | nil => cases hs
  | cons a as =>
      show strContains (String.intercalate.go a sep as) pat
      rcases List.mem_cons.mp hs with rfl | hmem
      · exact intercalate_go_contains pat sep as s (Or.inl h)
      · exact intercalate_go_contains pat sep as a (Or.inr ⟨s, hmem, h⟩)

theorem profileLines_eq_spec (p : Profile) : profileLines p = specProfileLines p := by
  unfold profileLines specProfileLines fieldOrder
  cases h1 : p.name == "" <;> cases h2 : p.age == "" <;> cases h3 : p.experience == "" <;>
    cases h4 : p.current_certs == "" <;> cases h5 : p.interest == "" <;>
      simp_all [List.filter]

/-- C1: an explain-node request whose title parameter is absent or
whitespace-only is answered with status 400, body "Missing node title" and a
plain-text content type, independently of every other request parameter, of
the stored session profile and of the generation client — so the generation
client is never invoked on such a request. -/
theorem C1_blank_title_400 (gen : GenClient) (a : ExpArgs) (sess : Option Profile)
    (h : pyStrip a.title = "") :
    explain_node gen a sess =
      ⟨"Missing node title", 400, "text/plain; charset=utf-8"⟩ := by
  simp [explain_node, h]

theorem C1_blank_title_400_witness :
    (pyStrip "  " = "") ∧
      explain_node (fun p => .error ("called with " ++ p))
          ⟨"  ", "Bob", "30", "pro", "certA", "x"⟩ (some ⟨"Ana", "", "", "", ""⟩) =
        ⟨"Missing node title", 400, "text/plain; charset=utf-8"⟩ :=
  ⟨by decide, C1_blank_title_400 _ _ _ (by decide)⟩

/-- C8: a recommend request stores exactly the trimmed request parameters as
the session profile, whatever was stored before: the previous profile never
survives, and afterwards the session holds exactly one profile. -/
theorem C8_recommend_replaces_profile (gen : GenClient) (a : RecArgs)
    (sess0 : Option Profile) :
    (recommend gen a sess0).2 =
      some ⟨pyStrip a.name, pyStrip a.age, pyStrip a.experience,
            pyStrip a.current_certs, pyStrip a.interest⟩ := by
  unfold recommend RecArgs.toProfile
  cases gen (recommendPrompt a) <;> rfl

/-- C9: prompt compilation is deterministic and depends only on the listed
inputs — the five effective profile fields plus the trimmed timeframe
(roadmap) or trimmed title (explanation): any two requests agreeing on those
compile to byte-identical prompt strings. -/
theorem C9_prompt_deterministic (a1 a2 : RecArgs) (e1 e2 : ExpArgs)
    (s1 s2 : Option Profile)
    (hp : a1.toProfile = a2.toProfile)
    (ht : pyStrip a1.timeframe = pyStrip a2.timeframe)
    (hep : explainEffective e1 s1 = explainEffective e2 s2)
    (het : pyStrip e1.title = pyStrip e2.title) :
    recommendPrompt a1 = recommendPrompt a2 ∧
      explainPrompt e1 s1 = explainPrompt e2 s2 := by
  unfold recommendPrompt explainPrompt
  rw [hp, ht, hep, het]
  exact ⟨rfl, rfl⟩

theorem C9_prompt_deterministic_witness :
    recommendPrompt ⟨" Ana ", "", "", "", "", " 6 months "⟩ =
        recommendPrompt ⟨"Ana", "", "", "", "", "6 months"⟩ ∧
      explainPrompt ⟨" Phishing ", " Ana ", "", "", "", ""⟩ none =
        explainPrompt ⟨"Phishing", "", "", "", "", ""⟩ (some ⟨"Ana", "", "", "", ""⟩) :=
  C9_prompt_deterministic _ _ _ _ _ _ (by decide) (by decide) (by decide) (by decide)

/-- C10: on the recommend endpoint the session write precedes the generation
call and is not rolled back on failure: when the call faults, the response is
a 500 yet the trimmed request profile is persisted in the session store. -/
theorem C10_session_write_survives_failure (gen : GenClient) (a : RecArgs)
    (sess0 : Option Profile) (e : String)
    (h : gen (recommendPrompt a) = .error e) :
    (recommend gen a sess0).1.status = 500 ∧
      (recommend gen a sess0).2 = some a.toProfile := by
  unfold recommend
  rw [h]
  exact ⟨rfl, rfl⟩

theorem C10_session_write_survives_failure_witness :
    ((fun _ => Except.error "boom" : GenClient)
        (recommendPrompt ⟨"Ana", "", "", "", "", ""⟩) = .error "boom") ∧
      ((recommend (fun _ => .error "boom") ⟨"Ana", "", "", "", "", ""⟩ none).1.status = 500 ∧
        (recommend (fun _ => .error "boom") ⟨"Ana", "", "", "", "", ""⟩ none).2 =
          some (RecArgs.toProfile ⟨"Ana", "", "", "", "", ""⟩)) :=
  ⟨rfl, C10_session_write_survives_failure _ _ _ _ rfl⟩

theorem recommend_snd (gen : GenClient) (a : RecArgs) (sess0 : Option Profile) :
    (recommend gen a sess0).2 = some a.toProfile := by
  unfold recommend
  cases gen (recommendPrompt a) <;> rfl

theorem strContains_explainPromptText_name (title name pt pat : String)
    (h : strContains (pyOr name "the user") pat) :
    strContains (explainPromptText title name pt) pat := by
  unfold explainPromptText
  exact strContains_appendL _ _ _ (strContains_appendL _ _ _
    (strContains_appendL _ _ _ (strContains_appendR _ _ _ h)))

theorem strContains_explainPromptText_profile (title name pt pat : String)
    (h : strContains pt pat) :
    strContains (explainPromptText title name pt) pat := by
  unfold explainPromptText
  exact strContains_appendL _ _ _ (strContains_appendR _ _ _ h)

theorem strContains_profileText (p : Profile) (line pat : String)
    (hline : line ∈ profileLines p) (h : strContains line pat) :
    strContains (profileText p) pat :=
  strContains_intercalate _ _ _ _ hline h

/-- C2: a fault of the outbound generation call on either endpoint is caught
at the call site and answered with status 500, content type text/html and a
body containing the fault's message; the handlers are total functions of the
client, so no fault propagates unhandled. -/
theorem C2_generation_fault_500 (gen1 gen2 : GenClient) (ra : RecArgs) (ea : ExpArgs)
    (sess1 sess2 : Option Profile) (e1 e2 : String)
    (hr : gen1 (recommendPrompt ra) = .error e1)
    (ht : pyStrip ea.title ≠ "")
    (he : gen2 (explainPrompt ea sess2) = .error e2) :
    ((recommend gen1 ra sess1).1.status = 500 ∧
     (recommend gen1 ra sess1).1.contentType = "text/html" ∧
     strContains (recommend gen1 ra sess1).1.body e1) ∧
    ((explain_node gen2 ea sess2).status = 500 ∧
     (explain_node gen2 ea sess2).contentType = "text/html" ∧
     strContains (explain_node gen2 ea sess2).body e2) := by
  unfold recommend explain_node
  rw [hr, if_neg ht, he]
  exact ⟨⟨rfl, rfl, strContains_mid _ _ _⟩, ⟨rfl, rfl, strContains_mid _ _ _⟩⟩

theorem C2_generation_fault_500_witness :
    ((recommend (fun _ => .error "quota exceeded") ⟨"Ana", "", "", "", "", ""⟩ none).1.status = 500 ∧
     (recommend (fun _ => .error "quota exceeded") ⟨"Ana", "", "", "", "", ""⟩ none).1.contentType = "text/html" ∧
     strContains (recommend (fun _ => .error "quota exceeded") ⟨"Ana", "", "", "", "", ""⟩ none).1.body
       "quota exceeded") ∧
    ((explain_node (fun _ => .error "rate limit") ⟨"Phishing", "", "", "", "", ""⟩ none).status = 500 ∧
     (explain_node (fun _ => .error "rate limit") ⟨"Phishing", "", "", "", "", ""⟩ none).contentType = "text/html" ∧
     strContains (explain_node (fun _ => .error "rate limit") ⟨"Phishing", "", "", "", "", ""⟩ none).body
       "rate limit") :=
  C2_generation_fault_500 _ _ _ _ _ _ _ _ rfl (by decide) rfl

/-- C3 counterexample: when the generation result is whitespace-only on the
explanation endpoint, the handler answers 200 with the fixed body
"<div>No explanation found.</div>", which does not contain the text
"No explanation available." stated by the claim. -/
theorem C3_explanation_fallback_counterexample :
    (explain_node (fun _ => .ok "   ") ⟨"Phishing", "", "", "", "", ""⟩ none).status = 200 ∧
    (explain_node (fun _ => .ok "   ") ⟨"Phishing", "", "", "", "", ""⟩ none).body =
      "<div>No explanation found.</div>" ∧
    ¬ strContains (explain_node (fun _ => .ok "   ") ⟨"Phishing", "", "", "", "", ""⟩ none).body
      "No explanation available." := by
  exact ⟨rfl, rfl, by decide⟩

/-- C3 amended: an empty or whitespace-only generation result yields status
200 with a fixed fallback body — "<p>No roadmap generated.</p>" on the
roadmap endpoint and "<div>No explanation found.</div>" on the explanation
endpoint. -/
theorem C3_empty_result_fallback (gen1 gen2 : GenClient) (ra : RecArgs) (ea : ExpArgs)
    (sess1 sess2 : Option Profile) (t1 t2 : String)
    (hr : gen1 (recommendPrompt ra) = .ok t1) (h1 : pyStrip t1 = "")
    (ht : pyStrip ea.title ≠ "")
    (he : gen2 (explainPrompt ea sess2) = .ok t2) (h2 : pyStrip t2 = "") :
    (recommend gen1 ra sess1).1 = ⟨"<p>No roadmap generated.</p>", 200, "text/html"⟩ ∧
    explain_node gen2 ea sess2 = ⟨"<div>No explanation found.</div>", 200, "text/html"⟩ := by
  unfold recommend explain_node
  rw [hr, if_neg ht, he]
  simp [pyOr, h1, h2]

theorem C3_empty_result_fallback_witness :
    (pyStrip " \n " = "") ∧
    (recommend (fun _ => .ok " \n ") ⟨"Ana", "", "", "", "", ""⟩ none).1 =
      ⟨"<p>No roadmap generated.</p>", 200, "text/html"⟩ ∧
    explain_node (fun _ => .ok "") ⟨"Phishing", "", "", "", "", ""⟩ none =
      ⟨"<div>No explanation found.</div>", 200, "text/html"⟩ := by
  have h := C3_empty_result_fallback (fun _ => .ok " \n ") (fun _ => .ok "")
    ⟨"Ana", "", "", "", "", ""⟩ ⟨"Phishing", "", "", "", "", ""⟩ none none
    " \n " "" rfl (by decide) (by decide) rfl (by decide)
  exact ⟨by decide, h.1, h.2⟩

/-- C4: the rendered profile block has exactly one labelled line per populated
field, in the fixed order name, age, experience, current_certs, interest, and
no line for a blank field: it equals the label/value rendering of the ordered
field list filtered to non-blank fields, and the profile text joins exactly
those lines. -/
theorem C4_profile_rendering (p : Profile) :
    profileLines p =
      (fieldOrder.filter (fun lf => decide (lf.2 p ≠ ""))).map
        (fun lf => "- " ++ lf.1 ++ ": " ++ lf.2 p) ∧
    profileText p = String.intercalate "\n" (specProfileLines p) ∧
    (profileLines p).length = (fieldOrder.filter (fun lf => decide (lf.2 p ≠ ""))).length := by
  refine ⟨profileLines_eq_spec p, ?_, ?_⟩
  · unfold profileText
    rw [profileLines_eq_spec]
  · rw [profileLines_eq_spec]
    unfold specProfileLines
    exact List.length_map _ _

/-- C5: after a recommend request that supplied name "Ana" and experience
"beginner" (other parameters arbitrary), an explain-node request from the
same session carrying only title=Phishing compiles a prompt containing both
"Ana" and "beginner", sourced from the stored session profile. -/
theorem C5_session_reuse (gen : GenClient) (age certs intr tf : String)
    (sess0 : Option Profile) :
    strContains
      (explainPrompt ⟨"Phishing", "", "", "", "", ""⟩
        ((recommend gen ⟨"Ana", age, "beginner", certs, intr, tf⟩ sess0).2)) "Ana" ∧
    strContains
      (explainPrompt ⟨"Phishing", "", "", "", "", ""⟩
        ((recommend gen ⟨"Ana", age, "beginner", certs, intr, tf⟩ sess0).2)) "beginner" := by
  rw [recommend_snd]
  have hP : RecArgs.toProfile ⟨"Ana", age, "beginner", certs, intr, tf⟩ =
      ⟨"Ana", pyStrip age, "beginner", pyStrip certs, pyStrip intr⟩ := rfl
  rw [hP]
  have hEff : explainEffective ⟨"Phishing", "", "", "", "", ""⟩
      (some ⟨"Ana", pyStrip age, "beginner", pyStrip certs, pyStrip intr⟩) =
      ⟨"Ana", pyStrip age, "beginner", pyStrip certs, pyStrip intr⟩ := rfl
  constructor
  · unfold explainPrompt
    rw [hEff]
    exact strContains_explainPromptText_name _ _ _ _
      (show strContains (pyOr "Ana" "the user") "Ana" by decide)
  · unfold explainPrompt
    rw [hEff]
    apply strContains_explainPromptText_profile
    apply strContains_profileText _ "- Experience Level: beginner"
    · unfold profileLines
      rcases eq_or_ne (pyStrip age) "" with h2 | h2 <;>
        rcases eq_or_ne (pyStrip certs) "" with h4 | h4 <;>
          rcases eq_or_ne (pyStrip intr) "" with h5 | h5 <;>
            simp [h2, h4, h5]
    · decide

/-- C6: on explain-node, each of the five profile fields independently
prefers the trimmed request parameter when it is non-blank and otherwise
falls back to the session profile's value for that same field (the empty
string when no profile is stored, as `sessField` yields "" for an empty
session). -/
theorem C6_field_override (a : ExpArgs) (sess : Option Profile) (f : FieldId) :
    (explainEffective a sess).fieldVal f =
      (if pyStrip (a.fieldVal f) = ""
       then sessField sess (fun p => p.fieldVal f)
       else pyStrip (a.fieldVal f)) ∧
    sessField none (fun p => p.fieldVal f) = "" := by
  cases f <;> exact ⟨rfl, rfl⟩

/-- C7 counterexample: with every parameter blank (so a blank timeframe), the
compiled roadmap prompt still contains the timeframe statement
"Desired Roadmap Timeframe:", contradicting the claim that no timeframe
statement appears when the parameter is blank. -/
theorem C7_timeframe_counterexample :
    pyStrip (RecArgs.timeframe ⟨"", "", "", "", "", ""⟩) = "" ∧
    strContains (recommendPrompt ⟨"", "", "", "", "", ""⟩) "Desired Roadmap Timeframe:" := by
  constructor
  · rfl
  · unfold recommendPrompt recommendPromptText
    exact strContains_appendL _ _ _ (strContains_appendL _ _ _
      (strContains_appendR _ _ _ (by decide)))

/-- C7 amended: the roadmap prompt enumerates only the profile fields that
are present, and the timeframe statement line is always present — it reads
"Desired Roadmap Timeframe: " followed by the trimmed timeframe value, which
is empty when the parameter is blank or absent. -/
theorem C7_roadmap_prompt_structure (a : RecArgs) :
    recommendPrompt a =
      recommendPromptText (String.intercalate "\n" (specProfileLines a.toProfile))
        (pyStrip a.timeframe) ∧
    strContains (recommendPrompt a) "Desired Roadmap Timeframe:" := by
  constructor
  · unfold recommendPrompt profileText
    rw [profileLines_eq_spec]
  · unfold recommendPrompt recommendPromptText
    exact strContains_appendL _ _ _ (strContains_appendL _ _ _
      (strContains_appendR _ _ _ (by decide)))
